import Mathlib

/-!
Shallow embedding of the rustbox core (src/rustbox.rs): the session guard,
session initialization and teardown, the event decoder, the error tables,
the style/color bit model and the width/height cast.  External collaborators
(termbox surface results, the gag stderr hold, the keyboard/mouse code
tables that live in modules not present here) are passed in as explicit
parameters or oracles.
-/

/-- Decidable equality for `Except`, used to evaluate decoder and init
results on concrete inputs. -/
instance {ε α : Type} [DecidableEq ε] [DecidableEq α] :
    DecidableEq (Except ε α) := fun a b =>
  match a, b with
  | .ok x, .ok y =>
    if h : x = y then .isTrue (h ▸ rfl)
    else .isFalse fun hc => h (Except.ok.inj hc)
  | .error x, .error y =>
    if h : x = y then .isTrue (h ▸ rfl)
    else .isFalse fun hc => h (Except.error.inj hc)
  | .ok _, .error _ => .isFalse fun hc => Except.noConfusion hc
  | .error _, .ok _ => .isFalse fun hc => Except.noConfusion hc

/-- Modelled from the spec: the keycode table of the keyboard module is out of
scope ("arbitrary enumerations with no algorithmic content") and the module
source is not present; a `Key` is either a decoded character (carrying its
u32 scalar value) or a named key, and the table lookup `Key::from_code` is an
arbitrary function parameter wherever the decoder needs it. -/
inductive Key where
  | Char (c : Nat)
  | named (code : Nat)
deriving DecidableEq

/-- Modelled from the spec: the mouse-button table of the mouse module is out
of scope and the module source is not present; the button enumeration and the
lookup `Mouse::from_code` are abstracted, the lookup as a function parameter. -/
inductive Mouse where
  | Left
  | Right
  | Middle
  | WheelUp
  | WheelDown
deriving DecidableEq

/-- The `Event` enum of src/rustbox.rs. `KeyEventRaw(u8, u16, u32)` carries
the raw modifier/keycode/char fields; integer fields are modelled as `Nat`
(unsigned) and `Int` (signed `i32`). -/
inductive Event where
  | KeyEventRaw (emod : Nat) (key : Nat) (ch : Nat)
  | KeyEvent (k : Option Key)
  | ResizeEvent (w : Int) (h : Int)
  | MouseEvent (m : Mouse) (x : Int) (y : Int)
  | NoEvent
deriving DecidableEq

/-- The `InputMode` enum of src/rustbox.rs. -/
inductive InputMode where
  | Current
  | Esc
  | Alt
  | EscMouse
  | AltMouse
deriving DecidableEq

/-- The discriminant values of `InputMode` (0x00, 0x01, 0x02, 0x05, 0x06). -/
def InputMode.code : InputMode → Nat
  | .Current => 0x00
  | .Esc => 0x01
  | .Alt => 0x02
  | .EscMouse => 0x05
  | .AltMouse => 0x06

/-- The `Color` enum of src/rustbox.rs. -/
inductive Color where
  | Default
  | Black
  | Red
  | Green
  | Yellow
  | Blue
  | Magenta
  | Cyan
  | White
deriving DecidableEq

/-- The `u16` discriminant of `Color` (`color as u16`). -/
def Color.code : Color → Nat
  | .Default => 0x00
  | .Black => 0x01
  | .Red => 0x02
  | .Green => 0x03
  | .Yellow => 0x04
  | .Blue => 0x05
  | .Magenta => 0x06
  | .Cyan => 0x07
  | .White => 0x08

/-- The bitflags `Style` of mod style: a `u16` word of flag bits. -/
structure Style where
  bits : Nat
deriving DecidableEq

/-- `TB_NORMAL_COLOR = 0x000F`. -/
def TB_NORMAL_COLOR : Style := ⟨0x000F⟩

/-- `RB_BOLD = 0x0100`. -/
def RB_BOLD : Style := ⟨0x0100⟩

/-- `RB_UNDERLINE = 0x0200`. -/
def RB_UNDERLINE : Style := ⟨0x0200⟩

/-- `RB_REVERSE = 0x0400`. -/
def RB_REVERSE : Style := ⟨0x0400⟩

/-- `RB_NORMAL = 0x0000`. -/
def RB_NORMAL : Style := ⟨0x0000⟩

/-- `TB_ATTRIB = RB_BOLD.bits | RB_UNDERLINE.bits | RB_REVERSE.bits`. -/
def TB_ATTRIB : Style := ⟨RB_BOLD.bits ||| RB_UNDERLINE.bits ||| RB_REVERSE.bits⟩

/-- Bitflags `|` on `Style`. -/
def Style.or (a b : Style) : Style := ⟨a.bits ||| b.bits⟩

/-- Bitflags `&` on `Style`. -/
def Style.and (a b : Style) : Style := ⟨a.bits &&& b.bits⟩

/-- `Style::from_color`: `Style { bits: color as u16 & TB_NORMAL_COLOR.bits }`. -/
def Style.from_color (color : Color) : Style :=
  ⟨color.code &&& TB_NORMAL_COLOR.bits⟩

/-- The foreground word computed by `RustBox::print` and `print_char`:
`Style::from_color(fg) | (sty & TB_ATTRIB)`. -/
def printFg (sty : Style) (fg : Color) : Style :=
  (Style.from_color fg).or (sty.and TB_ATTRIB)

/-- The termbox `RawEvent` record: `{etype, emod, key, ch, w, h, x, y}` with
unsigned fields as `Nat` and signed `i32` fields as `Int`. -/
structure RawEvent where
  etype : Int
  emod : Nat
  key : Nat
  ch : Nat
  w : Int
  h : Int
  x : Int
  y : Int
deriving DecidableEq

/-- `NIL_RAW_EVENT`: the all-zero record. -/
def NIL_RAW_EVENT : RawEvent := ⟨0, 0, 0, 0, 0, 0, 0, 0⟩

/-- The `EventError` enum: `TermboxError | Unknown(isize)`. -/
inductive EventError where
  | TermboxError
  | Unknown (n : Int)
deriving DecidableEq

/-- `FromPrimitive::from_i64` for `EventError`: `-1` maps to `TermboxError`,
every other code to `Unknown(n)`; always `Some`. -/
def EventError.from_i64 (n : Int) : Option EventError :=
  if n = -1 then some .TermboxError else some (.Unknown n)

/-- Rust `char::from_u32` on the u32 scalar: `None` exactly on surrogates
(0xD800..=0xDFFF) and values above 0x10FFFF, else the scalar itself. -/
def char_from_u32 (i : Nat) : Option Nat :=
  if 0x110000 ≤ i ∨ (0xD800 ≤ i ∧ i < 0xE000) then none else some i

/-- `unpack_event(ev_type, ev, raw)`.  The keyboard/mouse table lookups
`Key::from_code` / `Mouse::from_code` are the parameters `kf` / `mf`
(their modules are not in the source; the spec leaves the tables abstract).
The result is wrapped in `Option`: `none` models the `unwrap` panic on the
error path (which never happens, see the totality theorem). -/
def unpack_event (kf : Nat → Option Key) (mf : Nat → Option Mouse)
    (ev_type : Int) (ev : RawEvent) (raw : Bool) :
    Option (Except EventError Event) :=
  if ev_type = 0 then some (.ok .NoEvent)
  else if ev_type = 1 then
    some (.ok (if raw then .KeyEventRaw ev.emod ev.key ev.ch
      else .KeyEvent (if ev.key = 0 then (char_from_u32 ev.ch).map Key.Char
        else kf ev.key)))
  else if ev_type = 2 then some (.ok (.ResizeEvent ev.w ev.h))
  else if ev_type = 3 then
    some (.ok (.MouseEvent ((mf ev.key).getD .Left) ev.x ev.y))
  else (EventError.from_i64 ev_type).map Except.error

/-- The `InitError` enum.  `BufferStderrFailed` carries an `io::Error` in the
source; the payload is external I/O detail and is not modelled. -/
inductive InitError where
  | BufferStderrFailed
  | AlreadyOpen
  | UnsupportedTerminal
  | FailedToOpenTTy
  | PipeTrapError
  | Unknown (n : Int)
deriving DecidableEq

/-- `FromPrimitive::from_i64` for `InitError`: codes -1, -2 and -3 map to
the three named errors, every other code to `Unknown(n)`; always `Some`. -/
def InitError.from_i64 (n : Int) : Option InitError :=
  if n = -1 then some .UnsupportedTerminal
  else if n = -2 then some .FailedToOpenTTy
  else if n = -3 then some .PipeTrapError
  else some (.Unknown n)

namespace running

/-- The RAII `RunningGuard`, a unit struct. -/
structure RunningGuard where
  mk ::
deriving DecidableEq

/-- `running::run()`: an atomic `swap(true)` on the `RUSTBOX_RUNNING` flag.
The flag is passed explicitly; the result pairs the optional guard with the
new flag value (the swap always stores `true`). -/
def run (flag : Bool) : Option RunningGuard × Bool :=
  (if flag then none else some ⟨⟩, true)

/-- `Drop for RunningGuard`: stores `false` into the flag unconditionally. -/
def RunningGuard.dropFlag (_flag : Bool) : Bool :=
  false

/-- `running::running()`: a plain load of the flag. -/
def is_running (flag : Bool) : Bool := flag

/-- A state of the guard machine: the `RUSTBOX_RUNNING` flag together with
the number of live `RunningGuard` objects. -/
structure GState where
  flag : Bool
  live : Nat
deriving DecidableEq

/-- One transition of the guard machine: a successful `run()`, a failed
`run()`, or the drop of a live guard. -/
inductive GStep : GState → GState → Prop where
  | acquire (s : GState) (g : RunningGuard) (h : (run s.flag).1 = some g) :
      GStep s ⟨(run s.flag).2, s.live + 1⟩
  | acquireFail (s : GState) (h : (run s.flag).1 = none) :
      GStep s ⟨(run s.flag).2, s.live⟩
  | release (s : GState) (h : 0 < s.live) :
      GStep s ⟨RunningGuard.dropFlag s.flag, s.live - 1⟩

/-- States reachable from the initial state (flag `false`, no live guard:
`ATOMIC_BOOL_INIT` is `false`). -/
def GReachable (s : GState) : Prop :=
  Relation.ReflTransGen GStep ⟨false, 0⟩ s

end running

/-- `InitOptions { input_mode, buffer_stderr }`. -/
structure InitOptions where
  input_mode : InputMode
  buffer_stderr : Bool
deriving DecidableEq

/-- `Default for InitOptions`: `Current` input mode, no stderr buffering. -/
def InitOptions.default : InitOptions :=
  ⟨.Current, false⟩

/-- The `RustBox` handle: it owns the optional stderr `Hold` (modelled by its
presence) and the `RunningGuard`; the guard field is the last field. -/
structure RustBox where
  hasStderr : Bool
deriving DecidableEq

/-- The observable outcome of `RustBox::init`: the returned value, the
`RUSTBOX_RUNNING` flag after the call, and whether the stderr hold is still
held (owned by the handle) after the call. -/
structure InitOutcome where
  result : Except InitError RustBox
  running : Bool
  stderrHeld : Bool
deriving DecidableEq

/-- `RustBox::init(opts)`.  `holdOk` is the oracle for whether
`Hold::stderr()` succeeds and `tbRes` the oracle for the `tb_init()` return
code; `running0` is the `RUSTBOX_RUNNING` flag on entry.  Early `return Err`
paths drop the locals acquired so far (the guard, and the hold if taken),
exactly as the Rust scopes do; `none` models the `unwrap` panic on the
`tb_init` failure path. -/
def RustBox.init (opts : InitOptions) (holdOk : Bool) (tbRes : Int)
    (running0 : Bool) : Option InitOutcome :=
  match running.run running0 with
  | (none, flag1) => some ⟨.error .AlreadyOpen, flag1, false⟩
  | (some _g, flag1) =>
    if opts.buffer_stderr && !holdOk then
      some ⟨.error .BufferStderrFailed, running.RunningGuard.dropFlag flag1, false⟩
    else if tbRes = 0 then
      some ⟨.ok ⟨opts.buffer_stderr⟩, flag1, opts.buffer_stderr⟩
    else
      (InitError.from_i64 tbRes).map fun e =>
        ⟨.error e, running.RunningGuard.dropFlag flag1, false⟩

/-- One observable teardown effect of dropping a `RustBox`. -/
inductive Effect where
  | tbShutdown
  | stderrFlush
  | guardRelease
deriving DecidableEq

/-- The ordered effects of `drop`: the `Drop for RustBox` body runs
`tb_shutdown()` first, then the fields drop top-down: `_stderr` (the gag
`Hold` flushes the buffer), then `_running` (the guard stores `false`). -/
def RustBox.dropEffects (rb : RustBox) : List Effect :=
  .tbShutdown :: ((if rb.hasStderr then [.stderrFlush] else []) ++ [.guardRelease])

/-- The pointer width of the target: `usize` is 64 bits. -/
def USIZE_BITS : Nat := 64

/-- The Rust `as usize` cast of a (sign-extended) `c_int`: reinterpretation
modulo `2 ^ USIZE_BITS`. -/
def cast_c_int_to_usize (v : Int) : Nat :=
  (v % ((2 : Int) ^ USIZE_BITS)).toNat

/-- `RustBox::width`: `tb_width() as usize`, with the surface result as a
parameter. -/
def RustBox.width (tb_width : Int) : Nat :=
  cast_c_int_to_usize tb_width

/-- `RustBox::height`: `tb_height() as usize`, with the surface result as a
parameter. -/
def RustBox.height (tb_height : Int) : Nat :=
  cast_c_int_to_usize tb_height

/-- A trivial keycode table used for concrete witnesses. -/
def kf0 : Nat → Option Key := fun _ => none

/-- A trivial mouse table used for concrete witnesses. -/
def mf0 : Nat → Option Mouse := fun _ => none

/-- `EventError.from_i64` returns `Some` on every code. -/
lemma eventError_from_i64_total (n : Int) :
    (EventError.from_i64 n).isSome = true := by
  unfold EventError.from_i64
  split <;> rfl

/-- `InitError.from_i64` returns `Some` on every code. -/
lemma initError_from_i64_total (n : Int) :
    (InitError.from_i64 n).isSome = true := by
  unfold InitError.from_i64
  repeat' split
  all_goals rfl

/-- C9: error-value construction is total and panic-free: `from_i64` returns
`Some` for every code for both error enums, so neither the `unwrap` on the
error path of `unpack_event` nor the `unwrap` on the `tb_init` failure path
of `init` can panic (the `Option`-wrapped models never return `none`). -/
theorem c9_error_construction_total :
    (∀ n : Int, (EventError.from_i64 n).isSome = true)
    ∧ (∀ n : Int, (InitError.from_i64 n).isSome = true)
    ∧ (∀ (kf : Nat → Option Key) (mf : Nat → Option Mouse) (t : Int)
        (ev : RawEvent) (raw : Bool), (unpack_event kf mf t ev raw).isSome = true)
    ∧ (∀ (opts : InitOptions) (hOk : Bool) (tbRes : Int) (flag : Bool),
        (RustBox.init opts hOk tbRes flag).isSome = true) := by
  refine ⟨eventError_from_i64_total, initError_from_i64_total, ?_, ?_⟩
  · intro kf mf t ev raw
    unfold unpack_event EventError.from_i64
    repeat' split
    all_goals rfl
  · intro opts hOk tbRes flag
    cases flag
    · unfold RustBox.init running.run InitError.from_i64
      repeat' split
      all_goals rfl
    · rfl

/-- C2 counterexample: the type tag 4 is non-negative, yet the decoder
returns an error for it, refuting "for every non-negative type tag ... it
returns Ok". -/
theorem c2_counterexample :
    (0 : Int) ≤ 4
    ∧ unpack_event kf0 mf0 4 NIL_RAW_EVENT false
        = some (Except.error (EventError.Unknown 4)) := by
  decide

/-- C2 (amended): the decoder returns `Err` exactly when the type tag is not
one of 0, 1, 2, 3; on that path the tag -1 maps to `TermboxError` and any
other such tag `n` maps to `Unknown(n)`. -/
theorem c2_err_iff_unknown_tag (kf : Nat → Option Key) (mf : Nat → Option Mouse)
    (tag : Int) (ev : RawEvent) (raw : Bool) :
    ((∃ e, unpack_event kf mf tag ev raw = some (Except.error e)) ↔
      (tag ≠ 0 ∧ tag ≠ 1 ∧ tag ≠ 2 ∧ tag ≠ 3))
    ∧ unpack_event kf mf (-1) ev raw
        = some (Except.error EventError.TermboxError)
    ∧ (tag ≠ 0 → tag ≠ 1 → tag ≠ 2 → tag ≠ 3 → tag ≠ -1 →
        unpack_event kf mf tag ev raw
          = some (Except.error (EventError.Unknown tag))) := by
  unfold unpack_event EventError.from_i64
  refine ⟨?_, by norm_num, ?_⟩
  · constructor
    · rintro ⟨e, he⟩
      repeat' split at he
      all_goals simp_all
    · rintro ⟨h0, h1, h2, h3⟩
      simp only [h0, h1, h2, h3, if_false]
      split <;> exact ⟨_, rfl⟩
  · intro h0 h1 h2 h3 hm1
    simp [h0, h1, h2, h3, hm1]

/-- Witness for the amended C2 at the concrete tag 5. -/
theorem c2_err_iff_unknown_tag_witness :
    unpack_event kf0 mf0 5 NIL_RAW_EVENT false
      = some (Except.error (EventError.Unknown 5)) :=
  (c2_err_iff_unknown_tag kf0 mf0 5 NIL_RAW_EVENT false).2.2
    (by decide) (by decide) (by decide) (by decide) (by decide)

/-- C5: for a type-tag-1 record, `raw=true` yields `KeyEventRaw` verbatim;
`raw=false` with keycode 0 decodes the char field (`Some (Char c)` for a
valid Unicode scalar, `None` otherwise); `raw=false` with keycode `k ≠ 0`
yields the keycode-table lookup of `k` wrapped in `KeyEvent` (so an unknown
`k`, where the table returns `none`, yields `KeyEvent none`). -/
theorem c5_key_event_decoding (kf : Nat → Option Key) (mf : Nat → Option Mouse)
    (ev : RawEvent) :
    unpack_event kf mf 1 ev true
      = some (Except.ok (Event.KeyEventRaw ev.emod ev.key ev.ch))
    ∧ (ev.key = 0 → ev.ch < 0xD800 ∨ (0xE000 ≤ ev.ch ∧ ev.ch < 0x110000) →
        unpack_event kf mf 1 ev false
          = some (Except.ok (Event.KeyEvent (some (Key.Char ev.ch)))))
    ∧ (ev.key = 0 → (0xD800 ≤ ev.ch ∧ ev.ch < 0xE000) ∨ 0x110000 ≤ ev.ch →
        unpack_event kf mf 1 ev false
          = some (Except.ok (Event.KeyEvent none)))
    ∧ (ev.key ≠ 0 →
        unpack_event kf mf 1 ev false
          = some (Except.ok (Event.KeyEvent (kf ev.key)))) := by
  unfold unpack_event char_from_u32
  norm_num
  refine ⟨?_, ?_, ?_⟩
  · intro hk hvalid
    simp only [hk, if_true]
    rw [if_neg (by omega)]
    rfl
  · intro hk hinvalid
    simp only [hk, if_true]
    rw [if_pos (by omega)]
    rfl
  · intro hk
    simp [hk]

/-- Witness for C5 at a concrete record: keycode 0 with the scalar 97
decodes to `Char 97`. -/
theorem c5_key_event_decoding_witness :
    unpack_event kf0 mf0 1 ⟨1, 0, 0, 97, 0, 0, 0, 0⟩ false
      = some (Except.ok (Event.KeyEvent (some (Key.Char 97)))) :=
  (c5_key_event_decoding kf0 mf0 ⟨1, 0, 0, 97, 0, 0, 0, 0⟩).2.1
    rfl (by decide)

/-- C6: with the guard free and the stderr step passing, a nonzero `tb_init`
code is mapped through the init-error table and returned as `Err` (the table
sends -1, -2, -3 to the three named errors and everything else to
`Unknown`), while a zero code constructs the handle. -/
theorem c6_tb_init_mapping (opts : InitOptions) (hOk : Bool) (tbRes : Int)
    (hStderr : opts.buffer_stderr = true → hOk = true) :
    (tbRes = 0 → RustBox.init opts hOk tbRes false
        = some ⟨Except.ok ⟨opts.buffer_stderr⟩, true, opts.buffer_stderr⟩)
    ∧ (tbRes ≠ 0 → ∃ e, InitError.from_i64 tbRes = some e ∧
        RustBox.init opts hOk tbRes false = some ⟨Except.error e, false, false⟩)
    ∧ InitError.from_i64 (-1) = some InitError.UnsupportedTerminal
    ∧ InitError.from_i64 (-2) = some InitError.FailedToOpenTTy
    ∧ InitError.from_i64 (-3) = some InitError.PipeTrapError
    ∧ (∀ n : Int, n ≠ -1 → n ≠ -2 → n ≠ -3 →
        InitError.from_i64 n = some (InitError.Unknown n)) := by
  have hcond : ¬(opts.buffer_stderr = true ∧ hOk = false) := by
    rintro ⟨hb, hn⟩
    rw [hStderr hb] at hn
    exact Bool.noConfusion hn
  refine ⟨?_, ?_, by norm_num [InitError.from_i64], by norm_num [InitError.from_i64],
    by norm_num [InitError.from_i64], ?_⟩
  · intro h0
    simp [RustBox.init, running.run, hcond, h0]
  · intro hne
    cases hg : InitError.from_i64 tbRes with
    | none =>
      exfalso
      have htot := initError_from_i64_total tbRes
      rw [hg] at htot
      exact Bool.noConfusion htot
    | some e =>
      refine ⟨e, rfl, ?_⟩
      simp [RustBox.init, running.run, running.RunningGuard.dropFlag, hcond, hne, hg]
  · intro n h1 h2 h3
    simp [InitError.from_i64, h1, h2, h3]

/-- Witness for C6: a zero `tb_init` result constructs the handle. -/
theorem c6_tb_init_mapping_witness :
    RustBox.init InitOptions.default true 0 false
      = some ⟨Except.ok ⟨false⟩, true, false⟩ :=
  (c6_tb_init_mapping InitOptions.default true 0 (fun h => nomatch h)).1 rfl

/-- C7: a type-tag-3 record always decodes to `Ok (MouseEvent b x y)` where
`b` is the mouse-table lookup of the keycode when recognized and `Left`
otherwise; the decoder never returns `Err` for tag 3. -/
theorem c7_mouse_never_err (kf : Nat → Option Key) (mf : Nat → Option Mouse)
    (ev : RawEvent) (raw : Bool) :
    unpack_event kf mf 3 ev raw
      = some (Except.ok (Event.MouseEvent ((mf ev.key).getD Mouse.Left) ev.x ev.y))
    ∧ (∀ b, mf ev.key = some b →
        unpack_event kf mf 3 ev raw
          = some (Except.ok (Event.MouseEvent b ev.x ev.y)))
    ∧ (mf ev.key = none →
        unpack_event kf mf 3 ev raw
          = some (Except.ok (Event.MouseEvent Mouse.Left ev.x ev.y)))
    ∧ (∀ e, unpack_event kf mf 3 ev raw ≠ some (Except.error e)) := by
  refine ⟨by norm_num [unpack_event], ?_, ?_, ?_⟩
  · intro b hb
    norm_num [unpack_event, hb]
  · intro hb
    norm_num [unpack_event, hb]
  · intro e
    norm_num [unpack_event]
    exact fun hc => Except.noConfusion hc

/-- Witness for C7: an unrecognized mouse code defaults to `Left`. -/
theorem c7_mouse_never_err_witness :
    unpack_event kf0 mf0 3 NIL_RAW_EVENT false
      = some (Except.ok (Event.MouseEvent Mouse.Left 0 0)) :=
  (c7_mouse_never_err kf0 mf0 NIL_RAW_EVENT false).2.2.1 rfl

/-- C3 counterexample: dropping a handle with a buffered stderr runs
`tb_shutdown` first and releases the stderr hold second, not the claimed
stderr-first order. -/
theorem c3_counterexample :
    RustBox.dropEffects ⟨true⟩
      = [Effect.tbShutdown, Effect.stderrFlush, Effect.guardRelease]
    ∧ RustBox.dropEffects ⟨true⟩
      ≠ [Effect.stderrFlush, Effect.tbShutdown, Effect.guardRelease] := by
  decide

/-- C3 (amended): the teardown order is terminal shutdown first (the `Drop`
body), then the stderr hold is released (flushing the buffer), then the
guard's RUNNING flag is set to false last; in particular the stderr buffer
is still flushed before the flag returns to false. -/
theorem c3_teardown_order (rb : RustBox) (h : rb.hasStderr = true) :
    RustBox.dropEffects rb
      = [Effect.tbShutdown, Effect.stderrFlush, Effect.guardRelease]
    ∧ (RustBox.dropEffects rb).getLast? = some Effect.guardRelease
    ∧ (RustBox.dropEffects rb).indexOf Effect.stderrFlush
        < (RustBox.dropEffects rb).indexOf Effect.guardRelease := by
  cases rb with
  | mk s =>
    cases h
    decide

/-- Witness for the amended C3 at a concrete handle with buffered stderr. -/
theorem c3_teardown_order_witness :
    RustBox.dropEffects ⟨true⟩
      = [Effect.tbShutdown, Effect.stderrFlush, Effect.guardRelease] :=
  (c3_teardown_order ⟨true⟩ rfl).1

/-- C4 counterexample: `init` with the flag already set returns
`Err(AlreadyOpen)` while the RUNNING flag stays true (it belongs to the live
handle), refuting "the RUNNING flag is false after any Err result". -/
theorem c4_counterexample :
    RustBox.init InitOptions.default true 0 true
      = some ⟨Except.error InitError.AlreadyOpen, true, false⟩ := by
  decide

/-- C4 (amended): `init` is atomic on failure for everything it acquired
itself: starting with the guard free, every `Err` outcome leaves the RUNNING
flag false and the stderr hold released; an `AlreadyOpen` failure (guard
already held by a live handle) changes nothing and leaves the flag true. -/
theorem c4_init_releases_on_err (opts : InitOptions) (hOk : Bool) (tbRes : Int) :
    (∀ o, RustBox.init opts hOk tbRes false = some o →
      (∃ e, o.result = Except.error e) → o.running = false ∧ o.stderrHeld = false)
    ∧ RustBox.init opts hOk tbRes true
        = some ⟨Except.error InitError.AlreadyOpen, true, false⟩ := by
  constructor
  · intro o ho ⟨e, he⟩
    unfold RustBox.init running.run running.RunningGuard.dropFlag at ho
    simp only [Bool.false_eq_true, if_false] at ho
    split at ho
    · cases ho
      exact ⟨rfl, rfl⟩
    · split at ho
      · cases ho
        simp at he
      · cases hg : InitError.from_i64 tbRes with
        | none => rw [hg] at ho; cases ho
        | some e2 =>
          rw [hg] at ho
          cases ho
          exact ⟨rfl, rfl⟩
  · rfl

/-- Witness for the amended C4: the mapped `tb_init` failure -1 leaves both
the flag and the stderr hold released. -/
theorem c4_init_releases_on_err_witness :
    ((⟨Except.error InitError.UnsupportedTerminal, false, false⟩ :
      InitOutcome).running = false)
    ∧ ((⟨Except.error InitError.UnsupportedTerminal, false, false⟩ :
      InitOutcome).stderrHeld = false) :=
  (c4_init_releases_on_err InitOptions.default true (-1)).1
    ⟨Except.error InitError.UnsupportedTerminal, false, false⟩
    (by decide) ⟨InitError.UnsupportedTerminal, rfl⟩

/-- C10: `width`/`height` convert the surface's signed result by an
unchecked cast: a non-negative value is returned unchanged, a negative value
wraps modulo `2 ^ USIZE_BITS` instead of being rejected or clamped. -/
theorem c10_width_height_cast (v : Int) (h1 : -(2 ^ 31) ≤ v) (h2 : v < 2 ^ 31) :
    (0 ≤ v → ((RustBox.width v : Int) = v ∧ (RustBox.height v : Int) = v))
    ∧ (v < 0 → ((RustBox.width v : Int) = 2 ^ USIZE_BITS + v
        ∧ (RustBox.height v : Int) = 2 ^ USIZE_BITS + v)) := by
  unfold RustBox.width RustBox.height cast_c_int_to_usize USIZE_BITS
  norm_num
  constructor
  · intro hv
    omega
  · intro hv
    omega

/-- Witness for C10 at 5 and -1: the positive value is preserved, the
negative one wraps to `2 ^ 64 - 1`. -/
theorem c10_width_height_cast_witness :
    ((RustBox.width 5 : Int) = 5)
    ∧ ((RustBox.width (-1) : Int) = 2 ^ USIZE_BITS + (-1)) :=
  ⟨((c10_width_height_cast 5 (by norm_num) (by norm_num)).1 (by norm_num)).1,
    ((c10_width_height_cast (-1) (by norm_num) (by norm_num)).2 (by norm_num)).1⟩

/-- `testBit` of the color mask 0x000F. -/
lemma testBit_color_mask (i : Nat) : Nat.testBit 0xF i = decide (i < 4) := by
  have h : (0xF : Nat) = 2 ^ 4 - 1 := by norm_num
  rw [h, Nat.testBit_two_pow_sub_one]

/-- `testBit` of the attribute mask 0x0700. -/
lemma testBit_attrib_mask (i : Nat) :
    Nat.testBit 0x700 i = (decide (8 ≤ i) && decide (i < 11)) := by
  by_cases h : i < 11
  · interval_cases i <;> decide
  · have h11 : 11 ≤ i := Nat.le_of_not_lt h
    have hhi : Nat.testBit 0x700 i = false :=
      Nat.testBit_lt_two_pow (lt_of_lt_of_le (by norm_num)
        (Nat.pow_le_pow_right (by norm_num) h11))
    rw [hhi]
    simp
    omega

/-- A value below 16 has no bits at positions 4 and above. -/
lemma testBit_low_val {a : Nat} (ha : a < 16) {i : Nat} (h4 : 4 ≤ i) :
    Nat.testBit a i = false :=
  Nat.testBit_lt_two_pow (lt_of_lt_of_le ha
    (le_trans (by norm_num) (Nat.pow_le_pow_right (by norm_num) h4)))

/-- Bit-range disjointness of a low color word and a masked attribute word:
masking the OR with 0x000F recovers the color word and masking with 0x0700
recovers the attribute word. -/
lemma color_attrib_disjoint (a s : Nat) (ha : a < 16) :
    ((a ||| (s &&& 0x700)) &&& 0xF = a)
    ∧ ((a ||| (s &&& 0x700)) &&& 0x700 = s &&& 0x700) := by
  constructor
  · apply Nat.eq_of_testBit_eq
    intro i
    rw [Nat.testBit_land, Nat.testBit_lor, Nat.testBit_land,
      testBit_color_mask, testBit_attrib_mask]
    by_cases h4 : i < 4
    · have h8 : ¬ 8 ≤ i := by omega
      simp [h4, h8]
    · have hz : Nat.testBit a i = false := testBit_low_val ha (by omega)
      simp [h4, hz]
  · apply Nat.eq_of_testBit_eq
    intro i
    simp only [Nat.testBit_land, Nat.testBit_lor]
    rw [testBit_attrib_mask]
    by_cases h8 : 8 ≤ i
    · by_cases h11 : i < 11
      · have hz : Nat.testBit a i = false := testBit_low_val ha (by omega)
        simp [h8, h11, hz]
      · simp [h11]
    · simp [h8]

/-- C8: color bits and attribute bits occupy disjoint fixed ranges of the
16-bit style word: `from_color` lands entirely inside the 0x000F mask, and
in the composed word `from_color(c) | (sty & TB_ATTRIB)` of `print` the
color bits equal `from_color(c)` and the attribute bits equal `sty`'s
bold/underline/reverse bits, each unaffected by the other. -/
theorem c8_color_attrib_bit_ranges (c : Color) (sty : Style) :
    ((Style.from_color c).bits &&& 0xF = (Style.from_color c).bits)
    ∧ ((printFg sty c).bits &&& TB_NORMAL_COLOR.bits = (Style.from_color c).bits)
    ∧ ((printFg sty c).bits &&& TB_ATTRIB.bits = sty.bits &&& TB_ATTRIB.bits) := by
  have ha : (Style.from_color c).bits < 16 := by cases c <;> decide
  have hattrib : TB_ATTRIB.bits = 0x700 := by decide
  have hcolor : TB_NORMAL_COLOR.bits = 0xF := by decide
  have hfg : (printFg sty c).bits
      = (Style.from_color c).bits ||| (sty.bits &&& 0x700) := by
    simp [printFg, Style.or, Style.and, hattrib]
  refine ⟨?_, ?_, ?_⟩
  · cases c <;> decide
  · rw [hfg, hcolor]
    exact (color_attrib_disjoint _ sty.bits ha).1
  · rw [hfg, hattrib]
    exact (color_attrib_disjoint _ sty.bits ha).2

/-- One step of the guard machine preserves the invariant "the RUNNING flag
is true exactly when one guard is live, and at most one guard is live". -/
lemma gstep_preserves (b c : running.GState) (hbc : running.GStep b c)
    (ih : (b.flag = true ↔ b.live = 1) ∧ b.live ≤ 1) :
    (c.flag = true ↔ c.live = 1) ∧ c.live ≤ 1 := by
  cases hbc with
  | acquire g hg =>
    cases hb : b.flag with
    | true => rw [hb] at hg; simp [running.run] at hg
    | false =>
      have hlive : b.live = 0 := by
        have h1 := ih.1
        have h2 := ih.2
        rw [hb] at h1
        simp at h1
        omega
      exact ⟨by simp [running.run, hlive], by simp [hlive]⟩
  | acquireFail hg =>
    cases hb : b.flag with
    | false => rw [hb] at hg; simp [running.run] at hg
    | true =>
      have hlive : b.live = 1 := ih.1.mp hb
      exact ⟨by simp [running.run, hlive], by simp [hlive]⟩
  | release hpos =>
    have hlive : b.live = 1 := by
      have h2 := ih.2
      omega
    exact ⟨by simp [running.RunningGuard.dropFlag, hlive], by simp [hlive]⟩

/-- Invariant of the guard machine over reachable states, by induction along
the reflexive-transitive closure of `GStep`. -/
lemma greachable_invariant (s : running.GState) (h : running.GReachable s) :
    (s.flag = true ↔ s.live = 1) ∧ s.live ≤ 1 := by
  induction h with
  | refl => exact ⟨by decide, by decide⟩
  | tail _hab hbc ih => exact gstep_preserves _ _ hbc ih

/-- C1: the session guard is a state machine over the RUNNING flag:
`running::run()` returns a guard exactly when the flag was false and always
stores true; dropping the guard stores false; over every reachable state the
flag is true iff one guard is live (never more than one); while a guard is
live any `init` fails with `AlreadyOpen` and leaves the state alone; and
once no guard is live the flag can be acquired again. -/
theorem c1_session_guard_state_machine :
    (∀ b : Bool, (((running.run b).1).isSome = true ↔ b = false)
      ∧ (running.run b).2 = true)
    ∧ (∀ b : Bool, running.RunningGuard.dropFlag b = false)
    ∧ (∀ s, running.GReachable s → ((s.flag = true ↔ s.live = 1) ∧ s.live ≤ 1))
    ∧ (∀ s, running.GReachable s → s.live = 1 →
        ∀ (opts : InitOptions) (hOk : Bool) (tbRes : Int),
          RustBox.init opts hOk tbRes s.flag
            = some ⟨Except.error InitError.AlreadyOpen, true, false⟩)
    ∧ (∀ s, running.GReachable s → s.live = 0 →
        ((running.run s.flag).1).isSome = true) := by
  refine ⟨?_, fun _b => rfl, greachable_invariant, ?_, ?_⟩
  · intro b
    cases b <;> simp [running.run]
  · intro s hs h1 opts hOk tbRes
    have hf : s.flag = true := (greachable_invariant s hs).1.mpr h1
    rw [hf]
    rfl
  · intro s hs h0
    have hf : s.flag = false := by
      cases hb : s.flag
      · rfl
      · have := (greachable_invariant s hs).1.mp hb
        omega
    rw [hf]
    rfl

/-- Witness for C1: with a guard live (state reached by one acquisition)
`init` fails with `AlreadyOpen`, and from the freshly released flag `run`
acquires again. -/
theorem c1_session_guard_state_machine_witness :
    RustBox.init InitOptions.default true 0 true
      = some ⟨Except.error InitError.AlreadyOpen, true, false⟩
    ∧ ((running.run false).1).isSome = true := by
  have h := c1_session_guard_state_machine
  have reach1 : running.GReachable ⟨true, 1⟩ :=
    Relation.ReflTransGen.single (running.GStep.acquire ⟨false, 0⟩ ⟨⟩ rfl)
  exact ⟨h.2.2.2.1 ⟨true, 1⟩ reach1 rfl InitOptions.default true 0,
    (h.1 false).1.mpr rfl⟩
